/-
Verification development for the Handoff S3 delegated-authentication core
and the StoreQuery side-channel.

Shallow embedding of the C++ sources:
  - rgw_handoff.h / rgw_handoff.cc          (HandoffAuthResult, HTTP arm)
  - rgw_handoff_impl.h / rgw_handoff_impl.cc (HandoffHelperImpl, gRPC arm,
    error translation, config observer, presigned-URL expiry checks)
  - rgw_rest_storequery.h / rgw_rest_storequery.cc (header tokenizer,
    command dispatch, multipart-upload scan)

Pure functions of the source become Lean functions; external collaborators
(the gRPC transport, the HTTP transceiver, the bucket listing) become
explicit oracle parameters; fallible code returns Option or Except.
Machine integers that cannot overflow in the modelled ranges are Int or Nat.
-/

import Mathlib

set_option autoImplicit false

/-
Part 1: error codes and the authentication result type.

The numeric values of the RGW error codes live in rgw_common.h, outside this
repository. Only their identity matters to the modelled code, so they are
represented as a symbolic enumeration. EACCES and EINVAL are the POSIX
values used by the source with the same role.
-/

/-- RGW S3-level error codes used by the Handoff sources. -/
inductive ErrCode where
  | EACCES
  | EINVAL
  | ERR_SIGNATURE_NO_MATCH
  | ERR_INVALID_ACCESS_KEY
  | ERR_INTERNAL_ERROR
  | ERR_INVALID_REQUEST
  | ERR_INVALID_IDENTITY_TOKEN
  | ERR_METHOD_NOT_ALLOWED
  | ERR_REQUEST_TIME_SKEWED
  | ERR_NOT_FOUND
  deriving DecidableEq, Repr

/-- Error classification enum HandoffAuthResult::error_type (rgw_handoff.h). -/
inductive HandoffErrType where
  | NO_ERROR
  | TRANSPORT_ERROR
  | AUTH_ERROR
  | INTERNAL_ERROR
  deriving DecidableEq, Repr

/-- Result of HandoffHelper::auth, mirroring class HandoffAuthResult in
rgw_handoff.h. Field errorcode holds none for the default 0 of the C++
int member; a signing key is a byte vector. -/
structure HandoffAuthResult where
  userid_ : String
  signing_key_ : Option (List Nat)
  errorcode_ : Option ErrCode
  message_ : String
  is_err_ : Bool
  err_type_ : HandoffErrType
  deriving DecidableEq, Repr

/-- Success constructor HandoffAuthResult(userid, message). -/
def HandoffAuthResult.mkOk (userid message : String) : HandoffAuthResult :=
  { userid_ := userid, signing_key_ := none, errorcode_ := none,
    message_ := message, is_err_ := false, err_type_ := .NO_ERROR }

/-- Success constructor HandoffAuthResult(userid, message, signing_key). -/
def HandoffAuthResult.mkOkKey (userid message : String) (signing_key : List Nat) :
    HandoffAuthResult :=
  { userid_ := userid, signing_key_ := some signing_key, errorcode_ := none,
    message_ := message, is_err_ := false, err_type_ := .NO_ERROR }

/-- Failure constructor HandoffAuthResult(errorcode, message, err_type); the
C++ default for err_type is AUTH_ERROR and call sites below pass it
explicitly. -/
def HandoffAuthResult.mkErr (errorcode : ErrCode) (message : String)
    (err_type : HandoffErrType) : HandoffAuthResult :=
  { userid_ := "", signing_key_ := none, errorcode_ := some errorcode,
    message_ := message, is_err_ := true, err_type_ := err_type }

def HandoffAuthResult.is_err (r : HandoffAuthResult) : Bool := r.is_err_

def HandoffAuthResult.is_ok (r : HandoffAuthResult) : Bool := !r.is_err_

/-- Accessor HandoffAuthResult::userid. The C++ member returns the stored
user id on a success result and throws the int -EACCES on an error result;
the throw is modelled as the Except error channel. -/
def HandoffAuthResult.userid (r : HandoffAuthResult) : Except ErrCode String :=
  if r.is_err then .error .EACCES else .ok r.userid_

/-- Mutator HandoffAuthResult::set_signing_key. -/
def HandoffAuthResult.set_signing_key (r : HandoffAuthResult) (key : List Nat) :
    HandoffAuthResult :=
  { r with signing_key_ := some key }

/-
Part 2: the Authenticator error translator
(AuthServiceClient::_translate_authenticator_error_code, rgw_handoff_impl.cc).
-/

/-- Enum authenticator::v1::S3ErrorDetails_Type. The protobuf definition is
outside the repository; the fourteen types named by the translation table
plus the mandatory protobuf zero value TYPE_UNSPECIFIED are modelled.
TYPE_UNSPECIFIED stands for any enum member without a table entry. -/
inductive S3ErrorType where
  | TYPE_UNSPECIFIED
  | TYPE_ACCESS_DENIED
  | TYPE_AUTHORIZATION_HEADER_MALFORMED
  | TYPE_EXPIRED_TOKEN
  | TYPE_INTERNAL_ERROR
  | TYPE_INVALID_ACCESS_KEY_ID
  | TYPE_INVALID_REQUEST
  | TYPE_INVALID_SECURITY
  | TYPE_INVALID_TOKEN
  | TYPE_INVALID_URI
  | TYPE_METHOD_NOT_ALLOWED
  | TYPE_MISSING_SECURITY_HEADER
  | TYPE_REQUEST_TIME_TOO_SKEWED
  | TYPE_SIGNATURE_DOES_NOT_MATCH
  | TYPE_TOKEN_REFRESH_REQUIRED
  deriving DecidableEq, Repr

/-- Lookup in the static array auth_list of rgw_handoff_impl.cc (the array
is copied into the lazily initialised std::map auth_map; the map content
equals the array content since the fourteen keys are distinct). -/
def auth_map (t : S3ErrorType) : Option ErrCode :=
  match t with
  | .TYPE_ACCESS_DENIED => some .EACCES
  | .TYPE_AUTHORIZATION_HEADER_MALFORMED => some .ERR_INVALID_REQUEST
  | .TYPE_EXPIRED_TOKEN => some .EACCES
  | .TYPE_INTERNAL_ERROR => some .ERR_INTERNAL_ERROR
  | .TYPE_INVALID_ACCESS_KEY_ID => some .ERR_INVALID_ACCESS_KEY
  | .TYPE_INVALID_REQUEST => some .EINVAL
  | .TYPE_INVALID_SECURITY => some .EINVAL
  | .TYPE_INVALID_TOKEN => some .ERR_INVALID_IDENTITY_TOKEN
  | .TYPE_INVALID_URI => some .ERR_INVALID_REQUEST
  | .TYPE_METHOD_NOT_ALLOWED => some .ERR_METHOD_NOT_ALLOWED
  | .TYPE_MISSING_SECURITY_HEADER => some .ERR_INVALID_REQUEST
  | .TYPE_REQUEST_TIME_TOO_SKEWED => some .ERR_REQUEST_TIME_SKEWED
  | .TYPE_SIGNATURE_DOES_NOT_MATCH => some .ERR_SIGNATURE_NO_MATCH
  | .TYPE_TOKEN_REFRESH_REQUIRED => some .ERR_INVALID_REQUEST
  | .TYPE_UNSPECIFIED => none

/-- AuthServiceClient::_translate_authenticator_error_code
(rgw_handoff_impl.cc lines 317-347): a table hit yields an AUTH_ERROR
result with the mapped code; otherwise the desired HTTP status of the
Authenticator picks the code (400 EINVAL, 404 ERR_NOT_FOUND, 403 and
every other value EACCES). -/
def translate_authenticator_error_code (auth_type : S3ErrorType)
    (auth_http_status_code : Int) (message : String) : HandoffAuthResult :=
  match auth_map auth_type with
  | some code => HandoffAuthResult.mkErr code message .AUTH_ERROR
  | none =>
    if auth_http_status_code = 400 then
      HandoffAuthResult.mkErr .EINVAL message .AUTH_ERROR
    else if auth_http_status_code = 404 then
      HandoffAuthResult.mkErr .ERR_NOT_FOUND message .AUTH_ERROR
    else
      HandoffAuthResult.mkErr .EACCES message .AUTH_ERROR

/-
Part 3: the HTTP transport arm status mapping
(HandoffHelper::auth in rgw_handoff.cc, tail after a successful POST whose
JSON body parsed; the same switch appears in both revisions of the file).
-/

/-- Value RGWHTTPClient::HTTP_STATUS_NOSTATUS (rgw_http_client.h, outside
the repository): the no-status marker of the HTTP client, numerically 0. -/
def HTTP_STATUS_NOSTATUS : Int := 0

/-- Tail of the HTTP arm of HandoffHelper::auth (rgw_handoff.cc lines
694-708): the switch over the HTTP status, given the uid and message parsed
from the response JSON. The switch has cases for 200 (break), 401, 404 and
HTTP_STATUS_NOSTATUS only; every other status value falls through the
switch and reaches the final success return, exactly as case 200 does. -/
def http_status_to_result (status : Int) (uid message : String) : HandoffAuthResult :=
  if status = 200 then
    HandoffAuthResult.mkOk uid message
  else if status = 401 then
    HandoffAuthResult.mkErr .ERR_SIGNATURE_NO_MATCH message .AUTH_ERROR
  else if status = 404 then
    HandoffAuthResult.mkErr .ERR_INVALID_ACCESS_KEY message .AUTH_ERROR
  else if status = HTTP_STATUS_NOSTATUS then
    HandoffAuthResult.mkErr .EACCES message .AUTH_ERROR
  else
    HandoffAuthResult.mkOk uid message

/-
Part 4: the request model and the signature input normalizer
(HandoffHelperImpl in rgw_handoff_impl.cc).

The req_state of RGW is reduced to the fields the modelled code reads: the
CGI-style environment map (headers uppercased, hyphens replaced by
underscores, prefixed HTTP_), the parsed query parameters, the HTTP method,
the relative URI, the request URI and the transaction id. Maps are
association lists; lookup returns the first binding.
-/

/-- The request fields read by the modelled code (subset of req_state). -/
structure ReqState where
  env : List (String × String)
  args : List (String × String)
  method : String
  relative_uri : String
  request_uri : String
  trans_id : String
  string_to_sign : String
  deriving DecidableEq, Repr

/-- Lookup in an association list (std::map / RGWHTTPArgs lookup). -/
def mapGet (m : List (String × String)) (key : String) : Option String :=
  match m.find? (fun kv => kv.1 = key) with
  | some kv => some kv.2
  | none => none

/-- Environment map lookup (rgw::RGWEnv::get_map().find). -/
def envGet (s : ReqState) (key : String) : Option String := mapGet s.env key

/-- Query parameter lookup (s->info.args.get_optional). -/
def argGet (s : ReqState) (key : String) : Option String := mapGet s.args key

/-- Query parameter existence (s->info.args.exists). -/
def argExists (s : ReqState) (key : String) : Bool := (argGet s key).isSome

/-- Prefix test on the character sequence of two strings, modelling both
boost::algorithm::starts_with and the leading-character tests of the
source. -/
def startsWithLit (pre h : String) : Bool := pre.toList.isPrefixOf h.toList

/-- Helper synthesize_v2_header (rgw_handoff_impl.cc lines 371-387): require
query parameters AWSAccessKeyId and Signature and emit the v2 header. -/
def synthesize_v2_header (s : ReqState) : Option String :=
  match argGet s "AWSAccessKeyId", argGet s "Signature" with
  | some credential, some signature => some ("AWS " ++ credential ++ ":" ++ signature)
  | _, _ => none

/-- Helper synthesize_v4_header (rgw_handoff_impl.cc lines 412-434): require
query parameters x-amz-credential, x-amz-signedheaders and x-amz-signature
and emit the v4 header. -/
def synthesize_v4_header (s : ReqState) : Option String :=
  match argGet s "x-amz-credential", argGet s "x-amz-signedheaders",
      argGet s "x-amz-signature" with
  | some credential, some signedheaders, some signature =>
    some ("AWS4-HMAC-SHA256 Credential=" ++ credential ++ ", SignedHeaders="
      ++ signedheaders ++ ", Signature=" ++ signature)
  | _, _, _ => none

/-- HandoffHelperImpl::synthesize_auth_header (rgw_handoff_impl.cc lines
538-550): v2 when AWSAccessKeyId exists, else v4 when x-amz-credential
exists, else nothing. -/
def synthesize_auth_header (s : ReqState) : Option String :=
  if argExists s "AWSAccessKeyId" then
    synthesize_v2_header s
  else if argExists s "x-amz-credential" then
    synthesize_v4_header s
  else
    none

/-- Decimal digit run: value of the digits, none on any non-digit. -/
def digitsVal (acc : Nat) : List Char → Option Nat
  | [] => some acc
  | c :: rest =>
    if 48 ≤ c.toNat && c.toNat ≤ 57 then
      digitsVal (acc * 10 + (c.toNat - 48)) rest
    else
      none

/-- Integer parse absl::SimpleAtoi (Abseil, outside the repository): an
optional sign followed by at least one decimal digit, whole-string, no
surrounding whitespace. Overflow of the C++ int is not modelled; no claim
depends on it. -/
def simpleAtoi (s : String) : Option Int :=
  match s.toList with
  | [] => none
  | c :: rest =>
    if c = '-' then
      match rest with
      | [] => none
      | _ => (digitsVal 0 rest).map (fun n => -(n : Int))
    else if c = '+' then
      match rest with
      | [] => none
      | _ => (digitsVal 0 rest).map (fun n => (n : Int))
    else
      (digitsVal 0 (c :: rest)).map (fun n => (n : Int))

/-- Helper get_v2_presigned_expiry_time (rgw_handoff_impl.cc lines 639-656):
the Expires query parameter parsed as a UNIX time; missing or unparseable
yields none. -/
def get_v2_presigned_expiry_time (s : ReqState) : Option Int :=
  match argGet s "Expires" with
  | none => none
  | some expiry_time_str => simpleAtoi expiry_time_str

/-- Helper get_v4_presigned_expiry_time (rgw_handoff_impl.cc lines 591-626),
parametrised by the external time parser (absl::ParseTime with format
%E4Y%m%dT%H%M%S%Ez). Either parameter missing yields none, and an
unparseable x-amz-date yields none; but when absl::SimpleAtoi fails on
x-amz-expires the source only logs and continues with delta_seconds still
0, so the value x-amz-date + 0 is returned. The model mirrors that. -/
def get_v4_presigned_expiry_time (parseTime : String → Option Int)
    (s : ReqState) : Option Int :=
  match argGet s "x-amz-date", argGet s "x-amz-expires" with
  | some date, some delta =>
    match parseTime date with
    | none => none
    | some param_time =>
      let delta_seconds : Int :=
        match simpleAtoi delta with
        | some n => n
        | none => 0
      some (param_time + delta_seconds)
  | _, _ => none

/-- HandoffHelperImpl::valid_presigned_time (rgw_handoff_impl.cc lines
658-678): pick the v2 or v4 expiry extractor by which query parameter
exists, fail when no expiry time was produced, otherwise compare against
now (expired strictly below now). -/
def valid_presigned_time (parseTime : String → Option Int) (s : ReqState)
    (now : Int) : Bool :=
  let maybe_expiry_time : Option Int :=
    if argExists s "AWSAccessKeyId" then
      get_v2_presigned_expiry_time s
    else if argExists s "x-amz-credential" then
      get_v4_presigned_expiry_time parseTime s
    else
      none
  match maybe_expiry_time with
  | none => false
  | some expiry => !(expiry < now)

/-- Modelled from the spec: absl::ParseTime with format %E4Y%m%dT%H%M%S%Ez
(the Abseil library is outside the repository). Parses exactly
YYYYMMDDTHHMMSSZ as a UTC civil time and converts it to seconds since the
UNIX epoch using the standard days-from-civil computation. Malformed input
or out-of-range fields yield none. -/
def parseAmzDate (date : String) : Option Int :=
  let cs := date.toList.map Char.toNat
  let digit : Nat → Bool := fun c => 48 ≤ c && c ≤ 57
  let dval : Nat → Nat := fun c => c - 48
  match cs with
  | [y1, y2, y3, y4, mo1, mo2, d1, d2, t, h1, h2, mi1, mi2, s1, s2, z] =>
    if (t = 84 && z = 90 && digit y1 && digit y2 && digit y3 && digit y4 &&
        digit mo1 && digit mo2 && digit d1 && digit d2 && digit h1 &&
        digit h2 && digit mi1 && digit mi2 && digit s1 && digit s2) then
      let y := dval y1 * 1000 + dval y2 * 100 + dval y3 * 10 + dval y4
      let mo := dval mo1 * 10 + dval mo2
      let d := dval d1 * 10 + dval d2
      let hh := dval h1 * 10 + dval h2
      let mi := dval mi1 * 10 + dval mi2
      let ss := dval s1 * 10 + dval s2
      let leap := (y % 4 = 0 && y % 100 ≠ 0) || y % 400 = 0
      let mdays :=
        if mo = 2 then (if leap then 29 else 28)
        else if mo = 4 || mo = 6 || mo = 9 || mo = 11 then 30
        else 31
      if 1 ≤ mo && mo ≤ 12 && 1 ≤ d && d ≤ mdays && hh ≤ 23 && mi ≤ 59 && ss ≤ 59 then
        let yi : Int := (y : Int) - (if mo ≤ 2 then 1 else 0)
        let era : Int := (if 0 ≤ yi then yi else yi - 399) / 400
        let yoe : Int := yi - era * 400
        let moi : Int := (mo : Int)
        let doy : Int := (153 * (moi + (if 2 < mo then -3 else 9)) + 2) / 5 + (d : Int) - 1
        let doe : Int := yoe * 365 + yoe / 4 - yoe / 100 + doy
        let days : Int := era * 146097 + doe - 719468
        some (days * 86400 + (hh : Int) * 3600 + (mi : Int) * 60 + (ss : Int))
      else
        none
    else
      none
  | _ => none

/-
Part 5: authorization parameters and the per-request pipeline
(AuthorizationParameters and HandoffHelperImpl::auth, rgw_handoff_impl.cc).
-/

/-- Enum AuthParamMode (rgw_handoff_impl.h). -/
inductive AuthParamMode where
  | NEVER
  | WITHTOKEN
  | ALWAYS
  deriving DecidableEq, Repr

/-- The runtime-configuration fields of HandoffHelperImpl read by auth()
under the shared config lock. -/
structure HandoffConfig where
  presigned_expiry_check : Bool
  enable_signature_v2 : Bool
  enable_chunked_upload : Bool
  authorization_mode : AuthParamMode
  deriving DecidableEq, Repr

/-- Class AuthorizationParameters (rgw_handoff_impl.h): enriched snapshot of
the request; the valid flag distinguishes a usable snapshot. -/
structure AuthorizationParameters where
  valid : Bool
  method : String
  bucket_name : String
  object_key_name : String
  http_headers : List (String × String)
  http_request_path : String
  http_query_params : List (String × String)
  deriving DecidableEq, Repr

/-- Key transform of the header capture loop in the AuthorizationParameters
constructor: key.substr(5), underscores to hyphens, lowercase. -/
def transformHeaderKey (key : String) : String :=
  String.map (fun c => if c = '_' then '-' else c.toLower) (key.drop 5)

/-- Constructor AuthorizationParameters::AuthorizationParameters
(rgw_handoff_impl.cc lines 93-179). An empty method or a relative URI not
starting with a slash yields an invalid snapshot; the headers starting
HTTP_X_AMZ_ are captured with transformed keys; an empty remainder is a
valid snapshot without bucket or key; otherwise the remainder up to the
first slash is the bucket and the rest the object key. -/
def mkAuthorizationParameters (s : ReqState) : AuthorizationParameters :=
  let invalid : AuthorizationParameters :=
    { valid := false, method := "", bucket_name := "", object_key_name := "",
      http_headers := [], http_request_path := "", http_query_params := [] }
  if s.method = "" then invalid
  else if !(startsWithLit "/" s.relative_uri) then invalid
  else
    let req := s.relative_uri.drop 1
    let headers := (s.env.filter (fun kv => startsWithLit "HTTP_X_AMZ_" kv.1)).map
      (fun kv => (transformHeaderKey kv.1, kv.2))
    let base : AuthorizationParameters :=
      { valid := true, method := s.method, bucket_name := "",
        object_key_name := "", http_headers := headers,
        http_request_path := s.request_uri, http_query_params := s.args }
    if req = "" then base
    else
      match req.toList.findIdx? (fun c => c = '/') with
      | some pos =>
        { base with bucket_name := req.take pos,
                    object_key_name := req.drop (pos + 1) }
      | none => { base with bucket_name := req }

/-- Protobuf authenticator::v1::AuthenticateRESTRequest as filled by
HandoffHelperImpl::_grpc_auth: transaction id, string to sign, the
normalized Authorization header, and the optional authorization
parameters. -/
structure AuthenticateRESTRequest where
  transaction_id : String
  string_to_sign : String
  authorization_header : String
  authorization_param : Option AuthorizationParameters
  deriving DecidableEq, Repr

/-- Protobuf authenticator::v1::GetSigningKeyRequest as filled by
HandoffHelperImpl::get_signing_key: transaction id and the verbatim
Authorization header. -/
structure GetSigningKeyRequest where
  transaction_id : String
  authorization_header : String
  deriving DecidableEq, Repr

/-- Instrumented outcome of one run of HandoffHelperImpl::auth: the verdict
plus the outbound requests actually issued (none when the corresponding
call was never made). -/
structure AuthTrace where
  verdict : HandoffAuthResult
  verifyReq : Option AuthenticateRESTRequest
  skReq : Option GetSigningKeyRequest
  deriving DecidableEq, Repr

/-- Chunked-upload detection of HandoffHelperImpl::auth (rgw_handoff_impl.cc
lines 804-812): header X-Amz-Content-SHA256 present with the exact value
STREAMING-AWS4-HMAC-SHA256-PAYLOAD. -/
def isChunkedUpload (s : ReqState) : Bool :=
  match envGet s "HTTP_X_AMZ_CONTENT_SHA256" with
  | some v => v == "STREAMING-AWS4-HMAC-SHA256-PAYLOAD"
  | none => false

/-- Normalization prefix of HandoffHelperImpl::auth (rgw_handoff_impl.cc
lines 741-768), first stage: take HTTP_AUTHORIZATION verbatim when
present; otherwise synthesize a header from query parameters, denying when
that fails, and run the presigned expiry check when enabled. Denials carry
the HandoffAuthResult the source returns. -/
def handoffNormalizeStep1 (cfg : HandoffConfig)
    (parseTime : String → Option Int) (now : Int) (s : ReqState) :
    Except HandoffAuthResult String :=
  match envGet s "HTTP_AUTHORIZATION" with
  | some a => .ok a
  | none =>
    match synthesize_auth_header s with
    | none => .error (HandoffAuthResult.mkErr .EACCES
        "Internal error (missing Authorization and insufficient query parameters)"
        .AUTH_ERROR)
    | some a =>
      if cfg.presigned_expiry_check && !valid_presigned_time parseTime s now then
        .error (HandoffAuthResult.mkErr .EACCES
          "Presigned URL expiry check failed" .AUTH_ERROR)
      else
        .ok a

/-- Final step of the normalization: the v2-disabled check applied to the
header produced by handoffNormalizeStep1. -/
def handoffNormalize (cfg : HandoffConfig) (parseTime : String → Option Int)
    (now : Int) (s : ReqState) : Except HandoffAuthResult String :=
  match handoffNormalizeStep1 cfg parseTime now s with
  | .error e => .error e
  | .ok a =>
    if !cfg.enable_signature_v2 && startsWithLit "AWS " a then
      .error (HandoffAuthResult.mkErr .EACCES
        "Access denied (V2 signatures disabled)" .AUTH_ERROR)
    else
      .ok a

/-- Authorization-parameter capture policy of HandoffHelperImpl::auth
(rgw_handoff_impl.cc lines 778-797): capture when the mode is ALWAYS, or
WITHTOKEN with a nonempty session token; an invalid snapshot is
suppressed (re-nullopted), never fatal. -/
def authParamsFor (cfg : HandoffConfig) (session_token : String)
    (s : ReqState) : Option AuthorizationParameters :=
  if cfg.authorization_mode = .ALWAYS ||
      (cfg.authorization_mode = .WITHTOKEN && session_token ≠ "") then
    let p := mkAuthorizationParameters s
    if p.valid then some p else none
  else
    none

/-- The AuthenticateRESTRequest protobuf filled by _grpc_auth for the
normalized header auth. -/
def verifyRequestFor (cfg : HandoffConfig) (session_token : String)
    (s : ReqState) (auth : String) : AuthenticateRESTRequest :=
  { transaction_id := s.trans_id, string_to_sign := s.string_to_sign,
    authorization_header := auth,
    authorization_param := authParamsFor cfg session_token s }

/-- The GetSigningKeyRequest protobuf filled by get_signing_key for the
normalized header auth. -/
def skRequestFor (s : ReqState) (auth : String) : GetSigningKeyRequest :=
  { transaction_id := s.trans_id, authorization_header := auth }

/-- HandoffHelperImpl::auth (rgw_handoff_impl.cc lines 708-840) as a
function of the two transport oracles: verify stands for _grpc_auth from
the point the filled request protobuf is dispatched (AuthServiceClient::
Auth including the translation of the reply), sk for the GetSigningKey RPC
inside get_signing_key (none when the RPC fails or the channel is unset).
The authorization-parameter capture follows the source policy; an invalid
snapshot is suppressed, never fatal. The chunked-upload test reads header
X-Amz-Content-SHA256; a chunked request with chunked uploads disabled is
denied before any outbound call. -/
def handoffAuth (cfg : HandoffConfig) (parseTime : String → Option Int)
    (now : Int) (verify : AuthenticateRESTRequest → HandoffAuthResult)
    (sk : GetSigningKeyRequest → Option (List Nat))
    (session_token : String) (s : ReqState) : AuthTrace :=
  match handoffNormalize cfg parseTime now s with
  | .error e => { verdict := e, verifyReq := none, skReq := none }
  | .ok auth =>
    let is_chunked : Bool := isChunkedUpload s
    if is_chunked && !cfg.enable_chunked_upload then
      { verdict := HandoffAuthResult.mkErr .EACCES "chunked upload is disabled"
          .AUTH_ERROR,
        verifyReq := none, skReq := none }
    else
      let req : AuthenticateRESTRequest := verifyRequestFor cfg session_token s auth
      let result := verify req
      if result.is_err then
        { verdict := result, verifyReq := some req, skReq := none }
      else if !is_chunked then
        { verdict := result, verifyReq := some req, skReq := none }
      else
        let skr : GetSigningKeyRequest := skRequestFor s auth
        match sk skr with
        | none =>
          { verdict := HandoffAuthResult.mkErr .EACCES
              "failed to fetch signing key for chunked upload" .AUTH_ERROR,
            verifyReq := some req, skReq := some skr }
        | some key =>
          { verdict := result.set_signing_key key,
            verifyReq := some req, skReq := some skr }

/-
Part 6: the runtime configuration observer
(HandoffConfigObserver::handle_conf_change, rgw_handoff_impl.h lines
581-602, and the channel helpers of rgw_handoff_impl.cc).

grpc::ChannelArguments is modelled as the list of key/value pairs added by
SetInt, in insertion order; a default-constructed object is the empty
list. The gRPC channel construction (grpc::CreateCustomChannel) is outside
the repository and always yields a channel object, so set_channel_uri
always takes its success branch.
-/

/-- Model of grpc::ChannelArguments: the integer arguments set. -/
abbrev ChannelArgs : Type := List (String × Int)

/-- grpc::ChannelArguments::SetInt. -/
def chArgsSetInt (args : ChannelArgs) (key : String) (value : Int) : ChannelArgs :=
  args ++ [(key, value)]

/-- gRPC macro GRPC_ARG_INITIAL_RECONNECT_BACKOFF_MS. -/
def GRPC_ARG_INITIAL_RECONNECT_BACKOFF_MS : String := "grpc.initial_reconnect_backoff_ms"

/-- gRPC macro GRPC_ARG_MAX_RECONNECT_BACKOFF_MS. -/
def GRPC_ARG_MAX_RECONNECT_BACKOFF_MS : String := "grpc.max_reconnect_backoff_ms"

/-- gRPC macro GRPC_ARG_MIN_RECONNECT_BACKOFF_MS. -/
def GRPC_ARG_MIN_RECONNECT_BACKOFF_MS : String := "grpc.min_reconnect_backoff_ms"

/-- The tracked ceph configuration values read by the observer and the
channel helpers. -/
structure HandoffConf where
  rgw_handoff_grpc_uri : String
  rgw_handoff_grpc_arg_initial_reconnect_backoff_ms : Int
  rgw_handoff_grpc_arg_max_reconnect_backoff_ms : Int
  rgw_handoff_grpc_arg_min_reconnect_backoff_ms : Int
  rgw_handoff_enable_chunked_upload : Bool
  rgw_handoff_enable_signature_v2 : Bool
  rgw_handoff_authparam_always : Bool
  rgw_handoff_authparam_withtoken : Bool
  deriving DecidableEq, Repr

/-- The mutable helper state touched by the observer: channel arguments,
channel URI, and the runtime toggles (HandoffHelperImpl members). -/
structure HelperState where
  channel_args : Option ChannelArgs
  channel_uri : String
  enable_signature_v2 : Bool
  enable_chunked_upload : Bool
  authorization_mode : AuthParamMode
  deriving DecidableEq, Repr

/-- HandoffHelperImpl::get_default_channel_args (rgw_handoff_impl.cc lines
484-500), translated statement by statement: a local ChannelArguments
object args receives SetInt for the initial, max and min reconnect backoff
configuration values (in that order), the values are logged, and then the
function executes the statement return grpc::ChannelArguments();, handing
back a freshly default-constructed object rather than args. -/
def get_default_channel_args (conf : HandoffConf) : ChannelArgs :=
  let args := chArgsSetInt (chArgsSetInt (chArgsSetInt []
    GRPC_ARG_INITIAL_RECONNECT_BACKOFF_MS
    conf.rgw_handoff_grpc_arg_initial_reconnect_backoff_ms)
    GRPC_ARG_MAX_RECONNECT_BACKOFF_MS
    conf.rgw_handoff_grpc_arg_max_reconnect_backoff_ms)
    GRPC_ARG_MIN_RECONNECT_BACKOFF_MS
    conf.rgw_handoff_grpc_arg_min_reconnect_backoff_ms
  let _ := args
  ([] : ChannelArgs)

/-- HandoffHelperImpl::set_channel_args (rgw_handoff_impl.h lines 889-893):
store the given arguments under the channel lock. -/
def set_channel_args (st : HelperState) (args : ChannelArgs) : HelperState :=
  { st with channel_args := some args }

/-- HandoffHelperImpl::set_channel_uri (rgw_handoff_impl.cc lines 502-522):
fill in default channel arguments when none were set, rebuild the channel
with the stored arguments (channel construction is external and succeeds),
and record the new URI. -/
def set_channel_uri (conf : HandoffConf) (st : HelperState)
    (new_uri : String) : HelperState :=
  let st1 :=
    match st.channel_args with
    | none => { st with channel_args := some (get_default_channel_args conf) }
    | some _ => st
  { st1 with channel_uri := new_uri }

/-- HandoffHelperImpl::set_signature_v2 (rgw_handoff_impl.cc). -/
def set_signature_v2 (st : HelperState) (enabled : Bool) : HelperState :=
  { st with enable_signature_v2 := enabled }

/-- HandoffHelperImpl::set_chunked_upload_mode (rgw_handoff_impl.cc). -/
def set_chunked_upload_mode (st : HelperState) (enabled : Bool) : HelperState :=
  { st with enable_chunked_upload := enabled }

/-- HandoffHelperImpl::set_authorization_mode (rgw_handoff_impl.cc). -/
def set_authorization_mode (st : HelperState) (mode : AuthParamMode) : HelperState :=
  { st with authorization_mode := mode }

/-- HandoffConfigObserver::get_authorization_mode (rgw_handoff_impl.h lines
551-560): always dominates, then withtoken, else never. -/
def get_authorization_mode (conf : HandoffConf) : AuthParamMode :=
  if conf.rgw_handoff_authparam_always then .ALWAYS
  else if conf.rgw_handoff_authparam_withtoken then .WITHTOKEN
  else .NEVER

/-- HandoffConfigObserver::handle_conf_change (rgw_handoff_impl.h lines
581-602): when any of the three backoff keys changed, fetch
get_default_channel_args and apply them via set_channel_args; then the URI
rebuild, then each toggle, then the authorization mode. -/
def handle_conf_change (conf : HandoffConf) (changed : List String)
    (st : HelperState) : HelperState :=
  let st :=
    if changed.contains "rgw_handoff_grpc_arg_initial_reconnect_backoff_ms" ||
        changed.contains "rgw_handoff_grpc_arg_max_reconnect_backoff_ms" ||
        changed.contains "rgw_handoff_grpc_arg_min_reconnect_backoff_ms" then
      set_channel_args st (get_default_channel_args conf)
    else st
  let st :=
    if changed.contains "rgw_handoff_grpc_uri" then
      set_channel_uri conf st conf.rgw_handoff_grpc_uri
    else st
  let st :=
    if changed.contains "rgw_handoff_enable_chunked_upload" then
      set_chunked_upload_mode st conf.rgw_handoff_enable_chunked_upload
    else st
  let st :=
    if changed.contains "rgw_handoff_enable_signature_v2" then
      set_signature_v2 st conf.rgw_handoff_enable_signature_v2
    else st
  let st :=
    if changed.contains "rgw_handoff_authparam_always" ||
        changed.contains "rgw_handoff_authparam_withtoken" then
      set_authorization_mode st (get_authorization_mode conf)
    else st
  st

/-
Part 7: the StoreQuery header tokenizer and command dispatch
(RGWSQHeaderParser and RGWHandler_REST_StoreQuery_S3::op_get,
rgw_rest_storequery.h / rgw_rest_storequery.cc).

Header values are byte lists (0..255). The byte check of the source is the
C++ comparison c >= ' ' on plain char, which is signed on the reference
platform (x86-64 Linux), so bytes 0x80..0xff compare negative and are
rejected while 0x7f passes. The field splitter is
boost::tokenizer<boost::escaped_list_separator<char>> with escape
backslash, separator space and quote double-quote: separators outside
quotes end the current field (a trailing separator yields one further
empty field), quote characters toggle the quoted state and are dropped,
and an escape character must be followed by the letter n (yielding a
newline byte), a quote or an escape; any other following byte, or an
escape ending the input, raises boost::escaped_list_error, which
tokenize() does not catch.
-/

/-- Maximum header length RGWSQMaxHeaderLength (rgw_rest_storequery.h line
94). -/
def RGWSQMaxHeaderLength : Nat := 2048

/-- Byte check of the tokenizer loop: the signed-char comparison c >= ' '
admits exactly the byte values 32..127. -/
def sqByteOk (c : Nat) : Bool := 32 ≤ c && c ≤ 127

/-- Field splitter of boost::escaped_list_separator over the byte list,
carrying the in-quote flag, the current field (reversed) and the fields
already produced (reversed). none models a thrown
boost::escaped_list_error. -/
def elsSplit (inQuote : Bool) (cur : List Nat) (acc : List (List Nat)) :
    List Nat → Option (List (List Nat))
  | [] => some ((cur.reverse :: acc).reverse)
  | b :: rest =>
    if b = 92 then
      match rest with
      | [] => none
      | e :: rest2 =>
        if e = 110 then elsSplit inQuote (10 :: cur) acc rest2
        else if e = 34 || e = 92 then elsSplit inQuote (e :: cur) acc rest2
        else none
    else if b = 34 then elsSplit (!inQuote) cur acc rest
    else if b = 32 then
      if inQuote then elsSplit inQuote (32 :: cur) acc rest
      else elsSplit false [] (cur.reverse :: acc) rest
    else elsSplit inQuote (b :: cur) acc rest

/-- ASCII lowercase of one byte (boost::algorithm::to_lower_copy on the
command token). -/
def lowerByte (b : Nat) : Nat := if 65 ≤ b && b ≤ 90 then b + 32 else b

/-- Well-formedness of the escape sequences in a byte list: every escape
byte (92) must be followed by one of byte 110, 34 or 92, which the scan
then consumes; an escape as the last byte is malformed. -/
def escapesOk : List Nat → Bool
  | [] => true
  | b :: rest =>
    if b = 92 then
      match rest with
      | [] => false
      | e :: rest2 => (e = 110 || e = 34 || e = 92) && escapesOk rest2
    else escapesOk rest

/-- Outcome of RGWSQHeaderParser::tokenize: a boolean return in the source,
refined here with the reject site (the three early returns are
distinguishable by their log messages) and with a constructor for an
uncaught boost::escaped_list_error. -/
inductive TokResult where
  | accepted (command : List Nat) (params : List (List Nat))
  | rejectedEmpty
  | rejectedTooLong
  | rejectedChar
  | tokException
  deriving DecidableEq, Repr

/-- Boolean acceptance of a TokResult (tokenize returned true). -/
def TokResult.isAccepted : TokResult → Bool
  | .accepted _ _ => true
  | _ => false

/-- A rejection through one of the three early false returns of tokenize
(empty input, overlong input, illegal byte). -/
def TokResult.isHardReject : TokResult → Bool
  | .rejectedEmpty => true
  | .rejectedTooLong => true
  | .rejectedChar => true
  | _ => false

/-- RGWSQHeaderParser::tokenize (rgw_rest_storequery.cc lines 333-371):
reject empty input, then input longer than RGWSQMaxHeaderLength, then any
byte failing the signed-char comparison against space; then split into
fields, lowercase the first field as the command and keep the rest as
parameters. -/
def tokenize (input : List Nat) : TokResult :=
  if input = [] then .rejectedEmpty
  else if RGWSQMaxHeaderLength < input.length then .rejectedTooLong
  else if !(input.all sqByteOk) then .rejectedChar
  else
    match elsSplit false [] [] input with
    | none => .tokException
    | some [] => .accepted [] []
    | some (c :: ps) => .accepted (c.map lowerByte) ps

/-- Handler context enum RGWSQHandlerType (rgw_rest_storequery.h). -/
inductive RGWSQHandlerType where
  | Service
  | Bucket
  | Obj
  deriving DecidableEq, Repr

/-- The RGWOp object created by a successful parse. -/
inductive SQOp where
  | objectStatus
  | ping (request_id : List Nat)
  deriving DecidableEq, Repr

/-- Byte list of an ASCII string literal. -/
def strBytes (s : String) : List Nat := s.toList.map Char.toNat

/-- Outcome of RGWSQHeaderParser::parse: an op on success, a false return,
or the propagated tokenizer exception. -/
inductive ParseResult where
  | ok (op : SQOp)
  | failed
  | exnPropagated
  deriving DecidableEq, Repr

/-- RGWSQHeaderParser::parse (rgw_rest_storequery.cc lines 373-409): fail
when tokenize fails or the command is empty; objectstatus requires Obj
context and zero parameters; ping accepts any context and exactly one
parameter; all other commands fail. -/
def parse (input : List Nat) (handler_type : RGWSQHandlerType) : ParseResult :=
  match tokenize input with
  | .tokException => .exnPropagated
  | .accepted command param =>
    if command = [] then .failed
    else if command = strBytes "objectstatus" then
      if handler_type ≠ .Obj then .failed
      else if param ≠ [] then .failed
      else .ok .objectStatus
    else if command = strBytes "ping" then
      match param with
      | [p] => .ok (.ping p)
      | _ => .failed
    else .failed
  | _ => .failed

/-- Outcome of RGWHandler_REST_StoreQuery_S3::op_get: no op (header
absent), a created op, the thrown -ERR_INTERNAL_ERROR on parse failure, or
the propagated tokenizer exception. -/
inductive OpGetResult where
  | noop
  | op (o : SQOp)
  | internalError
  | exnPropagated
  deriving DecidableEq, Repr

/-- RGWHandler_REST_StoreQuery_S3::op_get (rgw_rest_storequery.cc lines
411-428): nothing to do when the x-rgw-storequery header is absent from
the environment; when present (with any value, the empty one included) a
parse failure throws -ERR_INTERNAL_ERROR, otherwise the parsed op is
returned. -/
def op_get (hdr : Option (List Nat)) (handler_type : RGWSQHandlerType) :
    OpGetResult :=
  match hdr with
  | none => .noop
  | some h =>
    match parse h handler_type with
    | .ok o => .op o
    | .failed => .internalError
    | .exnPropagated => .exnPropagated

/-
Part 8: the objectstatus multipart pass
(RGWStoreQueryOp_ObjectStatus::execute_mpupload_query,
rgw_rest_storequery.cc lines 220-272).

rgw::sal::Bucket::list_multiparts is outside the repository. Modelled from
the spec: per the design notes, the call does not advance the marker
argument between iterations (the loop never changes it either), so the
listing is a function of the marker passed in; it returns a failure code,
or one page of uploads together with the is_truncated flag. The loop body
re-issues the query with the same marker, ignores is_truncated entirely,
and stops only on a failure, an empty page, or an exact key match. A fuel
parameter makes the loop total; outOfFuel means the source loop has not
terminated within the given number of iterations.
-/

/-- One in-progress multipart upload as seen through rgw::sal (key and
upload id). -/
structure MpUpload where
  key : String
  upload_id : String
  deriving DecidableEq, Repr

/-- Result of the multipart scan loop. -/
inductive MpLoopResult where
  | found (upload_id : String)
  | notFound
  | listFailure
  | outOfFuel
  deriving DecidableEq, Repr

/-- The do/while loop of execute_mpupload_query: list_multiparts is the
oracle from marker to either a failure or a page with its is_truncated
flag; the marker is never advanced and is_truncated is never read, exactly
as in the source. -/
def execute_mpupload_query (list_multiparts : String → Except Int (List MpUpload × Bool))
    (object_key_name : String) (marker : String) : Nat → MpLoopResult
  | 0 => .outOfFuel
  | fuel + 1 =>
    match list_multiparts marker with
    | .error _ => .listFailure
    | .ok (uploads, _is_truncated) =>
      if uploads = [] then .notFound
      else
        match uploads.find? (fun u => u.key = object_key_name) with
        | some u => .found u.upload_id
        | none => execute_mpupload_query list_multiparts object_key_name marker fuel

/-- Concrete store for the divergence scenario: for every marker the
listing returns one in-progress upload whose key ab has the queried key a
as a proper prefix (list_multiparts queries by prefix), with is_truncated
true. -/
def stuckListing : String → Except Int (List MpUpload × Bool) :=
  fun _marker => .ok ([{ key := "ab", upload_id := "u-1" }], true)

/-- Concrete store where the single page holds an exact key match. -/
def matchListing : String → Except Int (List MpUpload × Bool) :=
  fun _marker => .ok ([{ key := "ab", upload_id := "u-2" },
                       { key := "a", upload_id := "u-1" }], false)

/-
Part 9: concrete fixtures used by the theorems and witnesses below.
-/

/-- Request of the presigned-v4 scenario: x-amz-credential present,
x-amz-date parseable, x-amz-expires not a number. -/
def sC3 : ReqState :=
  { env := [],
    args := [("x-amz-credential", "0555b35654ad1656d804/20231012/eu-west-2/s3/aws4_request"),
             ("x-amz-date", "20231012T000000Z"),
             ("x-amz-expires", "bogus")],
    method := "GET", relative_uri := "/testnv/rand", request_uri := "/testnv/rand",
    trans_id := "tx-c3", string_to_sign := "sts-c3" }

/-- Configuration snapshot for the observer scenario: backoff values
2000/1000/8000 ms. -/
def confC2 : HandoffConf :=
  { rgw_handoff_grpc_uri := "dns:///auth:8003",
    rgw_handoff_grpc_arg_initial_reconnect_backoff_ms := 2000,
    rgw_handoff_grpc_arg_max_reconnect_backoff_ms := 8000,
    rgw_handoff_grpc_arg_min_reconnect_backoff_ms := 1000,
    rgw_handoff_enable_chunked_upload := true,
    rgw_handoff_enable_signature_v2 := true,
    rgw_handoff_authparam_always := false,
    rgw_handoff_authparam_withtoken := false }

/-- Helper state before the observer scenario runs. -/
def stC2 : HelperState :=
  { channel_args := none, channel_uri := "dns:///auth:8003",
    enable_signature_v2 := true, enable_chunked_upload := true,
    authorization_mode := .NEVER }

/-- Runtime configuration for the chunked-upload scenario: everything
enabled, expiry check off, authorization parameters never captured. -/
def cfgC6 : HandoffConfig :=
  { presigned_expiry_check := false, enable_signature_v2 := true,
    enable_chunked_upload := true, authorization_mode := .NEVER }

/-- Chunked request fixture: inbound v4 Authorization header plus the
streaming payload marker. -/
def sC6 : ReqState :=
  { env := [("HTTP_AUTHORIZATION", "AWS4-HMAC-SHA256 Credential=c, SignedHeaders=h, Signature=s"),
            ("HTTP_X_AMZ_CONTENT_SHA256", "STREAMING-AWS4-HMAC-SHA256-PAYLOAD")],
    args := [], method := "PUT", relative_uri := "/b/o", request_uri := "/b/o",
    trans_id := "tx-c6", string_to_sign := "sts-c6" }

/-- Verifier oracle answering success with uid testid. -/
def verifyOk : AuthenticateRESTRequest → HandoffAuthResult :=
  fun _ => HandoffAuthResult.mkOk "testid" "ok"

/-- Signing-key oracle answering a 32-byte key. -/
def skKey : GetSigningKeyRequest → Option (List Nat) :=
  fun _ => some (List.replicate 32 7)

/-
Theorems. One theorem per claim of the specification, in claim order,
with shared helper lemmas first.
-/

/-- Helper: every denial produced by the normalization prefix is an error
result with code EACCES. -/
theorem handoffNormalizeStep1_error_eacces (cfg : HandoffConfig)
    (pt : String → Option Int) (now : Int) (s : ReqState)
    (e : HandoffAuthResult) (h : handoffNormalizeStep1 cfg pt now s = .error e) :
    e.is_err_ = true ∧ e.errorcode_ = some .EACCES := by
  unfold handoffNormalizeStep1 at h
  split at h
  · exact absurd h (by simp)
  · split at h
    · injection h with h2
      subst h2
      exact ⟨rfl, rfl⟩
    · split at h
      · injection h with h2
        subst h2
        exact ⟨rfl, rfl⟩
      · exact absurd h (by simp)

/-- Helper: every denial produced by the full normalization is an error
result with code EACCES. -/
theorem handoffNormalize_error_eacces (cfg : HandoffConfig)
    (pt : String → Option Int) (now : Int) (s : ReqState)
    (e : HandoffAuthResult) (h : handoffNormalize cfg pt now s = .error e) :
    e.is_err_ = true ∧ e.errorcode_ = some .EACCES := by
  unfold handoffNormalize at h
  split at h
  · rename_i e1 hs1
    injection h with h2
    subst h2
    exact handoffNormalizeStep1_error_eacces cfg pt now s e1 hs1
  · split at h
    · injection h with h2
      subst h2
      exact ⟨rfl, rfl⟩
    · exact absurd h (by simp)

/-- Claim C1: in the HTTP transport arm, after the POST returned and the
JSON parsed, status 200 yields the success verdict with the uid, 401
yields ERR_SIGNATURE_NO_MATCH, 404 yields ERR_INVALID_ACCESS_KEY and the
no-status marker yields access denied; but the status switch has no
default case, so every other status (403 and 500 shown) falls through to
the success return carrying the parsed uid instead of the access-denied
verdict the claim requires. -/
theorem http_arm_unmatched_status_returns_success :
  http_status_to_result 200 "testid" "ok" = HandoffAuthResult.mkOk "testid" "ok" ∧
  http_status_to_result 401 "testid" "m" =
    HandoffAuthResult.mkErr .ERR_SIGNATURE_NO_MATCH "m" .AUTH_ERROR ∧
  http_status_to_result 404 "testid" "m" =
    HandoffAuthResult.mkErr .ERR_INVALID_ACCESS_KEY "m" .AUTH_ERROR ∧
  http_status_to_result HTTP_STATUS_NOSTATUS "testid" "m" =
    HandoffAuthResult.mkErr .EACCES "m" .AUTH_ERROR ∧
  http_status_to_result 403 "testid" "denied" = HandoffAuthResult.mkOk "testid" "denied" ∧
  http_status_to_result 500 "testid" "oops" = HandoffAuthResult.mkOk "testid" "oops" := by
  refine ⟨rfl, rfl, rfl, rfl, rfl, rfl⟩

/-- Claim C2: when a backoff key change is observed, fresh channel
arguments are indeed derived and applied (channel_args is overwritten),
but the applied arguments are the empty default-constructed object, not
one containing the configured initial, minimum and maximum backoff
values: get_default_channel_args sets the three values on a local object
and then returns a freshly constructed grpc::ChannelArguments. -/
theorem conf_change_backoff_args_discarded :
  (handle_conf_change confC2
      ["rgw_handoff_grpc_arg_initial_reconnect_backoff_ms"] stC2).channel_args =
    some ([] : ChannelArgs) ∧
  ([] : ChannelArgs).contains (GRPC_ARG_INITIAL_RECONNECT_BACKOFF_MS, (2000 : Int)) = false ∧
  ([] : ChannelArgs).contains (GRPC_ARG_MIN_RECONNECT_BACKOFF_MS, (1000 : Int)) = false ∧
  ([] : ChannelArgs).contains (GRPC_ARG_MAX_RECONNECT_BACKOFF_MS, (8000 : Int)) = false := by
  refine ⟨rfl, rfl, rfl, rfl⟩

/-- Claim C3: on the v4 presigned path the claim requires a fail-closed
false whenever a required parameter is unparseable, but with x-amz-date
parseable and x-amz-expires unparseable the source keeps delta_seconds at
0 instead of returning nullopt, so the expiry becomes the date itself and
valid_presigned_time answers true at now equal to that date. -/
theorem presigned_v4_unparseable_expires_passes :
  parseAmzDate "20231012T000000Z" = some 1697068800 ∧
  simpleAtoi "bogus" = none ∧
  get_v4_presigned_expiry_time parseAmzDate sC3 = some 1697068800 ∧
  valid_presigned_time parseAmzDate sC3 1697068800 = true := by
  refine ⟨rfl, rfl, rfl, rfl⟩

/-- Claim C5: the error translator realises the authoritative table, falls
back on the desired HTTP status for types without a table entry (400 to
EINVAL, 404 to ERR_NOT_FOUND, 403 and everything else to EACCES), and is
a pure function of its inputs. -/
theorem translate_error_table :
  (∀ (s : Int) (m : String), translate_authenticator_error_code .TYPE_ACCESS_DENIED s m =
    HandoffAuthResult.mkErr .EACCES m .AUTH_ERROR) ∧
  (∀ (s : Int) (m : String), translate_authenticator_error_code .TYPE_AUTHORIZATION_HEADER_MALFORMED s m =
    HandoffAuthResult.mkErr .ERR_INVALID_REQUEST m .AUTH_ERROR) ∧
  (∀ (s : Int) (m : String), translate_authenticator_error_code .TYPE_EXPIRED_TOKEN s m =
    HandoffAuthResult.mkErr .EACCES m .AUTH_ERROR) ∧
  (∀ (s : Int) (m : String), translate_authenticator_error_code .TYPE_INTERNAL_ERROR s m =
    HandoffAuthResult.mkErr .ERR_INTERNAL_ERROR m .AUTH_ERROR) ∧
  (∀ (s : Int) (m : String), translate_authenticator_error_code .TYPE_INVALID_ACCESS_KEY_ID s m =
    HandoffAuthResult.mkErr .ERR_INVALID_ACCESS_KEY m .AUTH_ERROR) ∧
  (∀ (s : Int) (m : String), translate_authenticator_error_code .TYPE_INVALID_REQUEST s m =
    HandoffAuthResult.mkErr .EINVAL m .AUTH_ERROR) ∧
  (∀ (s : Int) (m : String), translate_authenticator_error_code .TYPE_INVALID_SECURITY s m =
    HandoffAuthResult.mkErr .EINVAL m .AUTH_ERROR) ∧
  (∀ (s : Int) (m : String), translate_authenticator_error_code .TYPE_INVALID_TOKEN s m =
    HandoffAuthResult.mkErr .ERR_INVALID_IDENTITY_TOKEN m .AUTH_ERROR) ∧
  (∀ (s : Int) (m : String), translate_authenticator_error_code .TYPE_INVALID_URI s m =
    HandoffAuthResult.mkErr .ERR_INVALID_REQUEST m .AUTH_ERROR) ∧
  (∀ (s : Int) (m : String), translate_authenticator_error_code .TYPE_METHOD_NOT_ALLOWED s m =
    HandoffAuthResult.mkErr .ERR_METHOD_NOT_ALLOWED m .AUTH_ERROR) ∧
  (∀ (s : Int) (m : String), translate_authenticator_error_code .TYPE_MISSING_SECURITY_HEADER s m =
    HandoffAuthResult.mkErr .ERR_INVALID_REQUEST m .AUTH_ERROR) ∧
  (∀ (s : Int) (m : String), translate_authenticator_error_code .TYPE_REQUEST_TIME_TOO_SKEWED s m =
    HandoffAuthResult.mkErr .ERR_REQUEST_TIME_SKEWED m .AUTH_ERROR) ∧
  (∀ (s : Int) (m : String), translate_authenticator_error_code .TYPE_SIGNATURE_DOES_NOT_MATCH s m =
    HandoffAuthResult.mkErr .ERR_SIGNATURE_NO_MATCH m .AUTH_ERROR) ∧
  (∀ (s : Int) (m : String), translate_authenticator_error_code .TYPE_TOKEN_REFRESH_REQUIRED s m =
    HandoffAuthResult.mkErr .ERR_INVALID_REQUEST m .AUTH_ERROR) ∧
  (∀ (m : String), translate_authenticator_error_code .TYPE_UNSPECIFIED 400 m =
    HandoffAuthResult.mkErr .EINVAL m .AUTH_ERROR) ∧
  (∀ (m : String), translate_authenticator_error_code .TYPE_UNSPECIFIED 404 m =
    HandoffAuthResult.mkErr .ERR_NOT_FOUND m .AUTH_ERROR) ∧
  (∀ (s : Int) (m : String), s ≠ 400 → s ≠ 404 →
    translate_authenticator_error_code .TYPE_UNSPECIFIED s m =
      HandoffAuthResult.mkErr .EACCES m .AUTH_ERROR) ∧
  (∀ (t1 t2 : S3ErrorType) (s1 s2 : Int) (m1 m2 : String),
    t1 = t2 → s1 = s2 → m1 = m2 →
    translate_authenticator_error_code t1 s1 m1 =
      translate_authenticator_error_code t2 s2 m2) := by
  refine ⟨fun s m => rfl, fun s m => rfl, fun s m => rfl, fun s m => rfl,
    fun s m => rfl, fun s m => rfl, fun s m => rfl, fun s m => rfl,
    fun s m => rfl, fun s m => rfl, fun s m => rfl, fun s m => rfl,
    fun s m => rfl, fun s m => rfl, fun m => rfl, fun m => rfl, ?_, ?_⟩
  · intro s m h400 h404
    simp [translate_authenticator_error_code, auth_map, h400, h404]
  · intro t1 t2 s1 s2 m1 m2 ht hs hm
    subst ht; subst hs; subst hm; rfl

/-- Witness for translate_error_table: the fallback applied at status 500,
and determinism applied at equal concrete inputs. -/
theorem translate_error_table_witness :
  translate_authenticator_error_code .TYPE_UNSPECIFIED 500 "m" =
    HandoffAuthResult.mkErr .EACCES "m" .AUTH_ERROR ∧
  translate_authenticator_error_code .TYPE_ACCESS_DENIED 403 "m" =
    translate_authenticator_error_code .TYPE_ACCESS_DENIED 403 "m" := by
  have h := translate_error_table
  refine ⟨?_, ?_⟩
  · exact h.2.2.2.2.2.2.2.2.2.2.2.2.2.2.2.2.1 500 "m" (by decide) (by decide)
  · exact h.2.2.2.2.2.2.2.2.2.2.2.2.2.2.2.2.2 .TYPE_ACCESS_DENIED
      .TYPE_ACCESS_DENIED 403 403 "m" "m" rfl rfl rfl

/-- Claim C8: the multipart pass of objectstatus is required to advance
its inout marker across pages of 100 and to track is_truncated until the
listing is exhausted or an exact match is found; the source loop never
advances the marker and never reads is_truncated, so on a store whose page
for the queried prefix holds only non-exact matches the loop re-issues the
identical query forever (outOfFuel for every fuel bound), while an exact
match on the listed page is found with its upload id. -/
theorem mpupload_code_loop_divergence :
  (∀ fuel, execute_mpupload_query stuckListing "a" "" fuel = .outOfFuel) ∧
  (∀ fuel, execute_mpupload_query matchListing "a" "" (fuel + 1) = .found "u-1") := by
  constructor
  · intro fuel
    induction fuel with
    | zero => rfl
    | succ n ih => exact ih
  · intro fuel
    rfl

/-- Claim C9: the user id accessor of an authentication verdict yields the
stored user id exactly on success verdicts and raises the fatal EACCES
denial on every error verdict. -/
theorem userid_accessible_only_on_success :
  (∀ r : HandoffAuthResult, r.is_err = true → r.userid = .error .EACCES) ∧
  (∀ r : HandoffAuthResult, r.is_err = false → r.userid = .ok r.userid_) ∧
  (∀ u m, (HandoffAuthResult.mkOk u m).userid = .ok u) ∧
  (∀ u m k, (HandoffAuthResult.mkOkKey u m k).userid = .ok u) ∧
  (∀ c m t, (HandoffAuthResult.mkErr c m t).userid = .error .EACCES) := by
  refine ⟨?_, ?_, fun u m => rfl, fun u m k => rfl, fun c m t => rfl⟩
  · intro r h
    simp [HandoffAuthResult.userid, h]
  · intro r h
    simp [HandoffAuthResult.userid, h]

/-- Witness for userid_accessible_only_on_success: applied to a concrete
error verdict and a concrete success verdict. -/
theorem userid_accessible_only_on_success_witness :
  (HandoffAuthResult.mkErr .EINVAL "boom" .AUTH_ERROR).userid = .error .EACCES ∧
  (HandoffAuthResult.mkOk "testid" "ok").userid = .ok "testid" := by
  have h := userid_accessible_only_on_success
  refine ⟨?_, ?_⟩
  · exact h.1 (HandoffAuthResult.mkErr .EINVAL "boom" .AUTH_ERROR) (by decide)
  · exact h.2.2.1 "testid" "ok"

/-- Claim C10: an empty x-rgw-storequery header value is rejected by the
first check of the tokenizer (before the length and byte checks), and a
request carrying the header with an empty value is aborted with the
internal error status, while an absent header produces no op at all. -/
theorem empty_storequery_header_internal_error :
  tokenize [] = .rejectedEmpty ∧
  (∀ ht, op_get (some []) ht = .internalError) ∧
  (∀ ht, op_get none ht = .noop) := by
  refine ⟨rfl, fun ht => rfl, fun ht => rfl⟩

/-- Helper: unfolding equation of the splitter on a cons cell with an
arbitrary tail. -/
theorem elsSplit_cons (q : Bool) (cur : List Nat) (acc : List (List Nat))
    (b : Nat) (rest : List Nat) :
    elsSplit q cur acc (b :: rest) =
      (if b = 92 then
        (match rest with
         | [] => none
         | e :: rest2 =>
           if e = 110 then elsSplit q (10 :: cur) acc rest2
           else if e = 34 || e = 92 then elsSplit q (e :: cur) acc rest2
           else none)
      else if b = 34 then elsSplit (!q) cur acc rest
      else if b = 32 then
        (if q then elsSplit q (32 :: cur) acc rest
         else elsSplit false [] (cur.reverse :: acc) rest)
      else elsSplit q (b :: cur) acc rest) := by
  cases rest <;> rfl

/-- Helper: unfolding equation of escape well-formedness on a cons cell
with an arbitrary tail. -/
theorem escapesOk_cons (b : Nat) (rest : List Nat) :
    escapesOk (b :: rest) =
      (if b = 92 then
        (match rest with
         | [] => false
         | e :: rest2 => (e = 110 || e = 34 || e = 92) && escapesOk rest2)
      else escapesOk rest) := by
  cases rest <;> rfl

/-- Helper: the field splitter succeeds exactly on inputs whose escape
sequences are well formed, independent of the splitter state (length-bound
induction). -/
theorem elsSplit_isSome_aux : ∀ (n : Nat) (input : List Nat) (q : Bool)
    (cur : List Nat) (acc : List (List Nat)), input.length ≤ n →
    (elsSplit q cur acc input).isSome = escapesOk input := by
  intro n
  induction n with
  | zero =>
    intro input q cur acc h
    have hnil : input = [] := List.eq_nil_of_length_eq_zero (Nat.le_zero.mp h)
    subst hnil
    simp [elsSplit, escapesOk]
  | succ n ih =>
    intro input q cur acc h
    cases input with
    | nil => simp [elsSplit, escapesOk]
    | cons b rest =>
      have hlen : rest.length ≤ n := by
        simp [List.length_cons] at h
        omega
      by_cases hb : b = 92
      · subst hb
        cases rest with
        | nil => simp [elsSplit_cons, escapesOk_cons]
        | cons e rest2 =>
          have hlen2 : rest2.length ≤ n := by
            simp [List.length_cons] at h
            omega
          by_cases he : e = 110
          · subst he
            simp [elsSplit_cons, escapesOk_cons, ih rest2 q (10 :: cur) acc hlen2]
          · by_cases he2 : e = 34
            · subst he2
              simp [elsSplit_cons, escapesOk_cons, ih rest2 q (34 :: cur) acc hlen2]
            · by_cases he3 : e = 92
              · subst he3
                simp [elsSplit_cons, escapesOk_cons, ih rest2 q (92 :: cur) acc hlen2]
              · simp [elsSplit_cons, escapesOk_cons, he, he2, he3]
      · by_cases hb2 : b = 34
        · subst hb2
          simp [elsSplit_cons, escapesOk_cons, ih rest (!q) cur acc hlen]
        · by_cases hb3 : b = 32
          · subst hb3
            cases q
            · simp [elsSplit_cons, escapesOk_cons, ih rest false [] (cur.reverse :: acc) hlen]
            · simp [elsSplit_cons, escapesOk_cons, ih rest true (32 :: cur) acc hlen]
          · simp [elsSplit_cons, escapesOk_cons, hb, hb2, hb3, ih rest q (b :: cur) acc hlen]

/-- Helper: splitter success equals escape well-formedness. -/
theorem elsSplit_isSome (input : List Nat) (q : Bool) (cur : List Nat)
    (acc : List (List Nat)) :
    (elsSplit q cur acc input).isSome = escapesOk input :=
  elsSplit_isSome_aux input.length input q cur acc le_rfl

/-- Helper: pointwise acceptance characterization of the tokenizer. -/
theorem tokenize_isAccepted (input : List Nat) :
    (tokenize input).isAccepted =
      (!input.isEmpty && decide (input.length ≤ RGWSQMaxHeaderLength) &&
        input.all sqByteOk && escapesOk input) := by
  unfold tokenize
  by_cases h1 : input = []
  · subst h1
    simp [escapesOk, TokResult.isAccepted]
  · have h1e : input.isEmpty = false := by
      simp [List.isEmpty_iff, h1]
    by_cases h2 : RGWSQMaxHeaderLength < input.length
    · have h2d : ¬ (input.length ≤ RGWSQMaxHeaderLength) := Nat.not_le.mpr h2
      simp [h1, h2, h2d, TokResult.isAccepted]
    · have h2d : input.length ≤ RGWSQMaxHeaderLength := Nat.not_lt.mp h2
      by_cases h3 : input.all sqByteOk
      · cases hs : elsSplit false [] [] input with
        | none =>
          have hesc := elsSplit_isSome input false [] []
          rw [hs] at hesc
          simp [h1, h2, h1e, h2d, h3, hs, TokResult.isAccepted, ← hesc]
        | some toks =>
          have hesc := elsSplit_isSome input false [] []
          rw [hs] at hesc
          cases toks with
          | nil => simp [h1, h2, h1e, h2d, h3, hs, TokResult.isAccepted, ← hesc]
          | cons c ps => simp [h1, h2, h1e, h2d, h3, hs, TokResult.isAccepted, ← hesc]
      · simp [h1, h2, h3, TokResult.isAccepted]

/-- Helper: escape well-formedness of a replicated byte other than the
escape character. -/
theorem escapesOk_replicate (n b : Nat) (hb : ¬ (b = 92)) :
    escapesOk (List.replicate n b) = true := by
  induction n with
  | zero => rfl
  | succ k ih => simp [List.replicate_succ, escapesOk_cons, hb, ih]

/-- Helper: all-quantified predicate over a replicated byte. -/
theorem all_replicate_true (n b : Nat) (p : Nat → Bool) (hb : p b = true) :
    (List.replicate n b).all p = true := by
  induction n with
  | zero => rfl
  | succ k ih => simp [List.replicate_succ, List.all_cons, hb, ih]

/-- Claim C4 (amended): the tokenizer accepts a header value exactly when it
is nonempty, at most 2048 bytes long, every byte passes the signed-char
comparison against space (byte values 32 through 127, so DEL is accepted
and bytes at and above 128 are rejected), and every backslash escape is
well formed (followed by a backslash, a double quote or the letter n); in
particular a 2048-byte header of the letter a is accepted and a 2049-byte
one is rejected, and every header rejected by the emptiness, length or
byte check aborts the request with the internal-error status. -/
theorem tokenize_accept_characterization :
  (∀ input : List Nat, (tokenize input).isAccepted =
    (!input.isEmpty && decide (input.length ≤ RGWSQMaxHeaderLength) &&
      input.all sqByteOk && escapesOk input)) ∧
  (tokenize (List.replicate 2048 97)).isAccepted = true ∧
  (tokenize (List.replicate 2049 97)).isAccepted = false ∧
  (∀ (hdr : List Nat) (ht : RGWSQHandlerType),
    (tokenize hdr).isHardReject = true → op_get (some hdr) ht = .internalError) := by
  refine ⟨tokenize_isAccepted, ?_, ?_, ?_⟩
  · rw [tokenize_isAccepted, List.length_replicate,
        escapesOk_replicate 2048 97 (by decide),
        all_replicate_true 2048 97 sqByteOk (by decide)]
    have hne : (List.replicate 2048 97).isEmpty = false := by
      rw [show (2048 : Nat) = 2047 + 1 from rfl, List.replicate_succ]
      rfl
    rw [hne]
    simp [RGWSQMaxHeaderLength]
  · rw [tokenize_isAccepted, List.length_replicate,
        escapesOk_replicate 2049 97 (by decide),
        all_replicate_true 2049 97 sqByteOk (by decide)]
    simp [RGWSQMaxHeaderLength]
  · intro hdr ht hrej
    cases htok : tokenize hdr with
    | accepted c ps => rw [htok] at hrej; simp [TokResult.isHardReject] at hrej
    | tokException => rw [htok] at hrej; simp [TokResult.isHardReject] at hrej
    | rejectedEmpty => simp [op_get, parse, htok]
    | rejectedTooLong => simp [op_get, parse, htok]
    | rejectedChar => simp [op_get, parse, htok]

/-- Witness for tokenize_accept_characterization: a header holding the
single byte 200 fails the byte check and op_get aborts with the internal
error status. -/
theorem tokenize_accept_characterization_witness :
  op_get (some [200]) .Obj = .internalError :=
  tokenize_accept_characterization.2.2.2 [200] .Obj (by decide)

/-- Counterexample to claim C4 as stated: the header bytes of the text ping
followed by a space and the byte 127 (DEL) are accepted by the tokenizer
although 127 lies outside the printable range 32 through 126 demanded by
the claim, so acceptance does not coincide with the claimed length and
printable-byte condition. -/
theorem tokenize_claimed_charset_counterexample :
  ¬ ((tokenize [112, 105, 110, 103, 32, 127]).isAccepted =
     (decide ((List.length [112, 105, 110, 103, 32, 127]) ≤ 2048) &&
      (List.all [112, 105, 110, 103, 32, 127]
        (fun c => decide (32 ≤ c) && decide (c ≤ 126))))) := by
  decide

/-- Helper: the v4 synthesized header never carries the v2 prefix (its
fourth character is the digit 4, not a space). -/
theorem v4_header_not_v2 (c sh sig : String) :
    startsWithLit "AWS " ("AWS4-HMAC-SHA256 Credential=" ++ c ++ ", SignedHeaders="
      ++ sh ++ ", Signature=" ++ sig) = false := rfl

/-- Claim C7: the normalization stage produces exactly one Authorization
header or denies the request: an inbound HTTP_AUTHORIZATION value is used
verbatim; otherwise with AWSAccessKeyId present the v2 header is
synthesized from AWSAccessKeyId and Signature (denial when Signature is
absent); otherwise with x-amz-credential present the v4 header is
synthesized from x-amz-credential, x-amz-signedheaders and x-amz-signature
(denial when either of the latter is absent); otherwise the request is
denied; and a resulting header bearing the v2 prefix passes only when v2
signatures are enabled (the synthesized-header cases may additionally be
denied by the presigned expiry check). -/
theorem auth_header_normalization_cases (cfg : HandoffConfig)
    (pt : String → Option Int) (now : Int) (s : ReqState) :
  (∀ a, envGet s "HTTP_AUTHORIZATION" = some a →
    (cfg.enable_signature_v2 = false ∧ startsWithLit "AWS " a = true →
      handoffNormalize cfg pt now s = .error (HandoffAuthResult.mkErr .EACCES
        "Access denied (V2 signatures disabled)" .AUTH_ERROR)) ∧
    (cfg.enable_signature_v2 = true ∨ startsWithLit "AWS " a = false →
      handoffNormalize cfg pt now s = .ok a)) ∧
  (envGet s "HTTP_AUTHORIZATION" = none →
    ∀ id, argGet s "AWSAccessKeyId" = some id →
      (argGet s "Signature" = none →
        handoffNormalize cfg pt now s = .error (HandoffAuthResult.mkErr .EACCES
          "Internal error (missing Authorization and insufficient query parameters)"
          .AUTH_ERROR)) ∧
      (∀ sig, argGet s "Signature" = some sig →
        handoffNormalize cfg pt now s = .ok ("AWS " ++ id ++ ":" ++ sig) ∨
        handoffNormalize cfg pt now s = .error (HandoffAuthResult.mkErr .EACCES
          "Presigned URL expiry check failed" .AUTH_ERROR) ∨
        handoffNormalize cfg pt now s = .error (HandoffAuthResult.mkErr .EACCES
          "Access denied (V2 signatures disabled)" .AUTH_ERROR))) ∧
  (envGet s "HTTP_AUTHORIZATION" = none → argGet s "AWSAccessKeyId" = none →
    ∀ c, argGet s "x-amz-credential" = some c →
      ((argGet s "x-amz-signedheaders" = none ∨ argGet s "x-amz-signature" = none) →
        handoffNormalize cfg pt now s = .error (HandoffAuthResult.mkErr .EACCES
          "Internal error (missing Authorization and insufficient query parameters)"
          .AUTH_ERROR)) ∧
      (∀ sh sig, argGet s "x-amz-signedheaders" = some sh →
        argGet s "x-amz-signature" = some sig →
        handoffNormalize cfg pt now s = .ok ("AWS4-HMAC-SHA256 Credential=" ++ c
          ++ ", SignedHeaders=" ++ sh ++ ", Signature=" ++ sig) ∨
        handoffNormalize cfg pt now s = .error (HandoffAuthResult.mkErr .EACCES
          "Presigned URL expiry check failed" .AUTH_ERROR))) ∧
  (envGet s "HTTP_AUTHORIZATION" = none → argGet s "AWSAccessKeyId" = none →
    argGet s "x-amz-credential" = none →
    handoffNormalize cfg pt now s = .error (HandoffAuthResult.mkErr .EACCES
      "Internal error (missing Authorization and insufficient query parameters)"
      .AUTH_ERROR)) ∧
  (∀ h, handoffNormalize cfg pt now s = .ok h →
    startsWithLit "AWS " h = true → cfg.enable_signature_v2 = true) := by
  refine ⟨?_, ?_, ?_, ?_, ?_⟩
  · intro a henv
    have hstep : handoffNormalizeStep1 cfg pt now s = .ok a := by
      unfold handoffNormalizeStep1
      rw [henv]
    constructor
    · rintro ⟨hv2, hAWS⟩
      unfold handoffNormalize
      rw [hstep]
      simp [hv2, hAWS]
    · intro hor
      unfold handoffNormalize
      rw [hstep]
      rcases hor with hv2 | hAWS
      · simp [hv2]
      · simp [hAWS]
  · intro henv id hid
    constructor
    · intro hsig
      have hs : synthesize_auth_header s = none := by
        unfold synthesize_auth_header synthesize_v2_header
        simp [argExists, hid, hsig]
      unfold handoffNormalize handoffNormalizeStep1
      rw [henv, hs]
    · intro sig hsig
      have hs : synthesize_auth_header s = some ("AWS " ++ id ++ ":" ++ sig) := by
        unfold synthesize_auth_header synthesize_v2_header
        simp [argExists, hid, hsig]
      unfold handoffNormalize handoffNormalizeStep1
      rw [henv, hs]
      cases hpc : (cfg.presigned_expiry_check && !valid_presigned_time pt s now) with
      | true =>
        right; left
        simp [hpc]
      | false =>
        cases hv2c : (!cfg.enable_signature_v2 &&
            startsWithLit "AWS " ("AWS " ++ id ++ ":" ++ sig)) with
        | true =>
          right; right
          simp [hpc, hv2c]
        | false =>
          left
          simp [hpc, hv2c]
  · intro henv hnoid c hc
    constructor
    · intro hmiss
      have hs : synthesize_auth_header s = none := by
        unfold synthesize_auth_header synthesize_v4_header
        rcases hmiss with hsh | hsg
        · simp [argExists, hnoid, hc, hsh]
        · cases hsh : argGet s "x-amz-signedheaders" with
          | none => simp [argExists, hnoid, hc, hsh]
          | some v => simp [argExists, hnoid, hc, hsh, hsg]
      unfold handoffNormalize handoffNormalizeStep1
      rw [henv, hs]
    · intro sh sig hsh hsig
      have hs : synthesize_auth_header s = some ("AWS4-HMAC-SHA256 Credential=" ++ c
          ++ ", SignedHeaders=" ++ sh ++ ", Signature=" ++ sig) := by
        unfold synthesize_auth_header synthesize_v4_header
        simp [argExists, hnoid, hc, hsh, hsig]
      unfold handoffNormalize handoffNormalizeStep1
      rw [henv, hs]
      cases hpc : (cfg.presigned_expiry_check && !valid_presigned_time pt s now) with
      | true =>
        right
        simp [hpc]
      | false =>
        left
        simp [hpc, v4_header_not_v2]
  · intro henv hnoid hnoc
    have hs : synthesize_auth_header s = none := by
      unfold synthesize_auth_header
      simp [argExists, hnoid, hnoc]
    unfold handoffNormalize handoffNormalizeStep1
    rw [henv, hs]
  · intro h hok hsw
    cases hv2 : cfg.enable_signature_v2 with
    | true => rfl
    | false =>
      exfalso
      unfold handoffNormalize at hok
      cases hs1 : handoffNormalizeStep1 cfg pt now s with
      | error e =>
        rw [hs1] at hok
        simp at hok
      | ok a =>
        rw [hs1] at hok
        by_cases hsw2 : startsWithLit "AWS " a = true
        · simp [hv2, hsw2] at hok
        · simp [hv2, hsw2] at hok
          rw [← hok] at hsw
          simp [hsw] at hsw2

/-- Witness for auth_header_normalization_cases: the verbatim-header case
applied to the chunked-upload fixture with v2 enabled. -/
theorem auth_header_normalization_cases_witness :
  handoffNormalize cfgC6 parseAmzDate 0 sC6 =
    .ok "AWS4-HMAC-SHA256 Credential=c, SignedHeaders=h, Signature=s" :=
  ((auth_header_normalization_cases cfgC6 parseAmzDate 0 sC6).1
    "AWS4-HMAC-SHA256 Credential=c, SignedHeaders=h, Signature=s" rfl).2
    (Or.inl rfl)

/-- Claim C6: for every request whose X-Amz-Content-SHA256 header equals
STREAMING-AWS4-HMAC-SHA256-PAYLOAD, with chunked upload disabled the
request is denied access (EACCES) without any signing-key fetch; the
GetSigningKey request carries the transaction id and the verbatim
normalized Authorization header and is only ever issued after the
verification verdict succeeded; a failed fetch downgrades the whole
result to access denied; a successful fetch attaches the returned key
bytes to the success verdict; and with chunked upload enabled a
successful verification of such a request is always followed by the
fetch. -/
theorem chunked_upload_signing_key_protocol (cfg : HandoffConfig)
    (pt : String → Option Int) (now : Int)
    (verify : AuthenticateRESTRequest → HandoffAuthResult)
    (sk : GetSigningKeyRequest → Option (List Nat))
    (tok : String) (s : ReqState)
    (hch : envGet s "HTTP_X_AMZ_CONTENT_SHA256" =
      some "STREAMING-AWS4-HMAC-SHA256-PAYLOAD") :
  (cfg.enable_chunked_upload = false →
    (handoffAuth cfg pt now verify sk tok s).verdict.is_err_ = true ∧
    (handoffAuth cfg pt now verify sk tok s).verdict.errorcode_ = some .EACCES ∧
    (handoffAuth cfg pt now verify sk tok s).skReq = none) ∧
  (∀ q, (handoffAuth cfg pt now verify sk tok s).skReq = some q →
    ∃ r, (handoffAuth cfg pt now verify sk tok s).verifyReq = some r ∧
      (verify r).is_err = false ∧
      q.transaction_id = s.trans_id ∧
      q.authorization_header = r.authorization_header) ∧
  (∀ q, (handoffAuth cfg pt now verify sk tok s).skReq = some q → sk q = none →
    (handoffAuth cfg pt now verify sk tok s).verdict =
      HandoffAuthResult.mkErr .EACCES
        "failed to fetch signing key for chunked upload" .AUTH_ERROR) ∧
  (∀ q k, (handoffAuth cfg pt now verify sk tok s).skReq = some q →
    sk q = some k →
    (handoffAuth cfg pt now verify sk tok s).verdict.is_err_ = false ∧
    (handoffAuth cfg pt now verify sk tok s).verdict.signing_key_ = some k) ∧
  (cfg.enable_chunked_upload = true →
    ∀ r, (handoffAuth cfg pt now verify sk tok s).verifyReq = some r →
      (verify r).is_err = false →
      (handoffAuth cfg pt now verify sk tok s).skReq.isSome = true) := by
  have hchunk : isChunkedUpload s = true := by
    simp [isChunkedUpload, hch]
  cases hn : handoffNormalize cfg pt now s with
  | error e =>
    have hp := handoffNormalize_error_eacces cfg pt now s e hn
    refine ⟨?_, ?_, ?_, ?_, ?_⟩
    · intro _
      simp [handoffAuth, hn, hp.1, hp.2]
    · intro q hq
      simp [handoffAuth, hn] at hq
    · intro q hq
      simp [handoffAuth, hn] at hq
    · intro q k hq
      simp [handoffAuth, hn] at hq
    · intro _ r hr
      simp [handoffAuth, hn] at hr
  | ok a =>
    cases hen : cfg.enable_chunked_upload with
    | false =>
      refine ⟨?_, ?_, ?_, ?_, ?_⟩
      · intro _
        simp [handoffAuth, hn, hchunk, hen, HandoffAuthResult.mkErr]
      · intro q hq
        simp [handoffAuth, hn, hchunk, hen] at hq
      · intro q hq
        simp [handoffAuth, hn, hchunk, hen] at hq
      · intro q k hq
        simp [handoffAuth, hn, hchunk, hen] at hq
      · intro hc
        simp at hc
    | true =>
      cases hv : (verify (verifyRequestFor cfg tok s a)).is_err_ with
      | true =>
        refine ⟨?_, ?_, ?_, ?_, ?_⟩
        · intro hc
          simp at hc
        · intro q hq
          simp [handoffAuth, hn, hchunk, hen, HandoffAuthResult.is_err, hv] at hq
        · intro q hq
          simp [handoffAuth, hn, hchunk, hen, HandoffAuthResult.is_err, hv] at hq
        · intro q k hq
          simp [handoffAuth, hn, hchunk, hen, HandoffAuthResult.is_err, hv] at hq
        · intro _ r hr hverr
          simp [handoffAuth, hn, hchunk, hen, HandoffAuthResult.is_err, hv] at hr
          rw [← hr] at hverr
          rw [HandoffAuthResult.is_err] at hverr
          rw [hv] at hverr
          cases hverr
      | false =>
        cases hsk : sk (skRequestFor s a) with
        | none =>
          refine ⟨?_, ?_, ?_, ?_, ?_⟩
          · intro hc
            simp at hc
          · intro q hq
            simp [handoffAuth, hn, hchunk, hen, HandoffAuthResult.is_err, hv, hsk] at hq
            refine ⟨verifyRequestFor cfg tok s a, ?_, hv, ?_, ?_⟩
            · simp [handoffAuth, hn, hchunk, hen, HandoffAuthResult.is_err, hv, hsk]
            · rw [← hq]
              rfl
            · rw [← hq]
              rfl
          · intro q hq hskq
            simp [handoffAuth, hn, hchunk, hen, HandoffAuthResult.is_err, hv, hsk]
          · intro q k hq hskq
            simp [handoffAuth, hn, hchunk, hen, HandoffAuthResult.is_err, hv, hsk] at hq
            rw [← hq] at hskq
            rw [hsk] at hskq
            cases hskq
          · intro _ r hr hverr
            simp [handoffAuth, hn, hchunk, hen, HandoffAuthResult.is_err, hv, hsk]
        | some k0 =>
          refine ⟨?_, ?_, ?_, ?_, ?_⟩
          · intro hc
            simp at hc
          · intro q hq
            simp [handoffAuth, hn, hchunk, hen, HandoffAuthResult.is_err, hv, hsk] at hq
            refine ⟨verifyRequestFor cfg tok s a, ?_, hv, ?_, ?_⟩
            · simp [handoffAuth, hn, hchunk, hen, HandoffAuthResult.is_err, hv, hsk]
            · rw [← hq]
              rfl
            · rw [← hq]
              rfl
          · intro q hq hskq
            simp [handoffAuth, hn, hchunk, hen, HandoffAuthResult.is_err, hv, hsk] at hq
            rw [← hq] at hskq
            rw [hsk] at hskq
            cases hskq
          · intro q k hq hskq
            simp [handoffAuth, hn, hchunk, hen, HandoffAuthResult.is_err, hv, hsk] at hq ⊢
            rw [← hq] at hskq
            rw [hsk] at hskq
            injection hskq with hk
            subst hk
            constructor
            · rw [HandoffAuthResult.set_signing_key]
              exact hv
            · rfl
          · intro _ r hr hverr
            simp [handoffAuth, hn, hchunk, hen, HandoffAuthResult.is_err, hv, hsk]

/-- Witness for chunked_upload_signing_key_protocol: the key-attachment
conjunct applied to the chunked fixture with a succeeding verifier and a
32-byte signing key. -/
theorem chunked_upload_signing_key_protocol_witness :
  (handoffAuth cfgC6 parseAmzDate 0 verifyOk skKey "" sC6).verdict.is_err_ = false ∧
  (handoffAuth cfgC6 parseAmzDate 0 verifyOk skKey "" sC6).verdict.signing_key_ =
    some (List.replicate 32 7) :=
  (chunked_upload_signing_key_protocol cfgC6 parseAmzDate 0 verifyOk skKey "" sC6
      (by rfl)).2.2.2.1
    (skRequestFor sC6 "AWS4-HMAC-SHA256 Credential=c, SignedHeaders=h, Signature=s")
    (List.replicate 32 7) (by rfl) (by rfl)
